import Mathlib

/-
  Verification development for the danube-connect connector framework.

  Shallow embedding of the core runtime layer (danube-connect-core) and the
  Delta Lake sink connector, with theorems checking the natural-language
  specification against the code.

  Machine integers are modelled as Nat/Int; payload bytes as List Nat;
  fallible code returns Except; the asynchronous loops are modelled as
  folds over the finite list of messages/poll results that arrive before
  the shutdown flag is observed.
-/

namespace DanubeConnect

/-- Modelled from the spec: `error.rs` is not among the sources; the error
kinds are paragraph 4.2's `{Fatal, Retryable, InvalidData, Config}` plus the
`Serialization` variant used by `message.rs`.  Constructor names follow the
constructors used throughout the sources (`ConnectorError::fatal`,
`::retryable_with_source`, `::invalid_data`, `::config`,
`::Serialization`). -/
inductive ConnectorError where
  | Fatal (message : String)
  | Retryable (message : String)
  | InvalidData (message : String) (payload : List Nat)
  | Config (message : String)
  | Serialization (message : String)
deriving Repr, DecidableEq

/-- `ConnectorError::is_retryable` (used by the runtime retry guard). -/
def ConnectorError.is_retryable : ConnectorError → Bool
  | .Retryable _ => true
  | _ => false

/-- `ConnectorError::is_invalid_data` (used by the runtime skip branch). -/
def ConnectorError.is_invalid_data : ConnectorError → Bool
  | .InvalidData _ _ => true
  | _ => false

/-- Whether an error is a `Config` error. -/
def ConnectorError.is_config : ConnectorError → Bool
  | .Config _ => true
  | _ => false

/-- `RetryConfig` carried by the retry strategy; fields named as in
`ConnectorConfig` from which `SinkRuntime::new` builds it
(`RetryConfig::new(config.max_retries, config.retry_backoff_ms,
config.max_backoff_ms)`, runtime.rs lines 61-65). -/
structure RetryConfig where
  max_retries : Nat
  retry_backoff_ms : Nat
  max_backoff_ms : Nat
deriving Repr, DecidableEq

namespace RetryStrategy

/-- Modelled from the spec: `retry.rs` is not among the sources.  Paragraph
4.2: "Retry is declined when `N > max_retries`".  The runtime calls
`should_retry(attempt)` with `attempt` equal to the number of retries already
performed, so the `N`-th retry (`N = attempt + 1`, 1-indexed) is allowed
exactly when `attempt < max_retries`. -/
def should_retry (rs : RetryConfig) (attempt : Nat) : Bool :=
  attempt < rs.max_retries

/-- Modelled from the spec: `retry.rs` is not among the sources.  Paragraph
4.2: "Backoff for attempt N (1-indexed) is
`min(base_backoff_ms * 2^(N-1), max_backoff_ms)`"; the optional ±10% jitter
is not modelled. -/
def calculate_backoff (rs : RetryConfig) (attempt : Nat) : Nat :=
  min (rs.retry_backoff_ms * 2 ^ (attempt - 1)) rs.max_backoff_ms

end RetryStrategy

/-- The retry guard of `SinkRuntime::process_with_retry` (runtime.rs line
208): `e.is_retryable() && self.retry_strategy.should_retry(attempt)`. -/
def retryGuard (rs : RetryConfig) (e : ConnectorError) (attempt : Nat) : Bool :=
  e.is_retryable && RetryStrategy.should_retry rs attempt

instance instDecEqExcept {ε α : Type} [DecidableEq ε] [DecidableEq α] :
    DecidableEq (Except ε α) := fun a b =>
  match a, b with
  | .ok x, .ok y =>
    if h : x = y then isTrue (by rw [h])
    else isFalse (fun hc => h (Except.ok.inj hc))
  | .ok _, .error _ => isFalse (fun hc => Except.noConfusion hc)
  | .error _, .ok _ => isFalse (fun hc => Except.noConfusion hc)
  | .error x, .error y =>
    if h : x = y then isTrue (by rw [h])
    else isFalse (fun hc => h (Except.error.inj hc))

/-- Observable outcome of one `process_with_retry` call: the returned
result, the number of `connector.process` invocations, and the backoff
durations slept, in order (one entry per retry, i.e. per
`metrics.record_retry()` increment). -/
structure ProcessOutcome where
  result : Except ConnectorError Unit
  calls : Nat
  backoffs : List Nat
deriving Repr, DecidableEq

/-- The loop body of `SinkRuntime::process_with_retry` (runtime.rs lines
197-230), starting at retry counter `attempt`.  The plugin behaviour is the
function `p` from the attempt index (0-indexed invocation count) to the
result of `connector.process(record.clone())`.  Match arms in source order:
success; retryable error with the retry guard; invalid data (skipped,
returns Ok); any other error propagated. -/
def pwrAux (rs : RetryConfig) (p : Nat → Except ConnectorError Unit)
    (attempt : Nat) : ProcessOutcome :=
  match p attempt with
  | .ok _ => ⟨.ok (), 1, []⟩
  | .error e =>
    if h : retryGuard rs e attempt = true then
      let rest := pwrAux rs p (attempt + 1)
      ⟨rest.result, rest.calls + 1,
        RetryStrategy.calculate_backoff rs (attempt + 1) :: rest.backoffs⟩
    else if e.is_invalid_data then ⟨.ok (), 1, []⟩
    else ⟨.error e, 1, []⟩
termination_by rs.max_retries - attempt
decreasing_by
  simp only [retryGuard, RetryStrategy.should_retry, Bool.and_eq_true,
    decide_eq_true_eq] at h
  omega

/-- `SinkRuntime::process_with_retry` starts with `attempt = 0`. -/
def process_with_retry (rs : RetryConfig)
    (p : Nat → Except ConnectorError Unit) : ProcessOutcome :=
  pwrAux rs p 0

/-- `DanubeMetadata` (message.rs lines 30-42); `u64` fields become `Nat`. -/
structure DanubeMetadata where
  topic : String
  offset : Nat
  publish_time : Nat
  message_id : String
  producer_name : String
deriving Repr, DecidableEq

/-- `SinkRecord` (message.rs lines 17-27); the payload is a byte list. -/
structure SinkRecord where
  payload : List Nat
  attributes : List (String × String)
  danube_metadata : DanubeMetadata
  partition : Option String
deriving Repr, DecidableEq

/-- `SinkRecord::topic` accessor (message.rs line 178). -/
def SinkRecord.topic (r : SinkRecord) : String :=
  r.danube_metadata.topic

/-- `SinkRecord::message_id` accessor (message.rs line 198). -/
def SinkRecord.message_id (r : SinkRecord) : String :=
  r.danube_metadata.message_id

/-- Observable state of one `SinkRuntime::run` execution.  Counters follow
the `ConnectorMetrics` calls in runtime.rs; `invalid` is the
`messages_invalid` counter of the spec's metrics surface (modelled from the
spec, `metrics.rs` not being among the sources) — the runtime never calls
any method that increments it.  `acked` records the `consumer.ack` calls in
order (by message id); `attemptsPerMsg` the number of `connector.process`
invocations for each received message, in order. -/
structure SinkLoopState where
  received : Nat
  succeeded : Nat
  errored : Nat
  retried : Nat
  invalid : Nat
  acked : List String
  attemptsPerMsg : List Nat
  shutdownCalls : Nat
  healthy : Bool
  result : Except ConnectorError Unit
deriving Repr, DecidableEq

/-- State at entry of the main processing loop. -/
def initialSinkState : SinkLoopState :=
  ⟨0, 0, 0, 0, 0, [], [], 0, true, .ok ()⟩

/-- One iteration of the main processing loop of `SinkRuntime::run`
(runtime.rs lines 153-185) for a received message `m`: record the receive,
run `process_with_retry`, on `Ok` acknowledge (recording success only when
the ack itself succeeds, `ackOk`), on `Err` log and increment the errored
counter — and in either case continue the loop. -/
def sinkStep (rs : RetryConfig)
    (p : SinkRecord → Nat → Except ConnectorError Unit) (ackOk : Bool)
    (st : SinkLoopState) (m : SinkRecord) : SinkLoopState :=
  let pr := process_with_retry rs (p m)
  let st1 := { st with
    received := st.received + 1
    retried := st.retried + pr.backoffs.length
    attemptsPerMsg := st.attemptsPerMsg ++ [pr.calls] }
  match pr.result with
  | .ok _ =>
    let st2 := { st1 with acked := st1.acked ++ [m.message_id] }
    if ackOk then { st2 with succeeded := st2.succeeded + 1 } else st2
  | .error _ => { st1 with errored := st1.errored + 1 }

/-- The main loop and shutdown of `SinkRuntime::run` (runtime.rs lines
151-194), for the finite list of messages the stream delivers before the
shutdown flag is observed.  After the loop the runtime calls
`connector.shutdown()` exactly once; `run` returns its result (`?`), and
health is set to false only when shutdown succeeded. -/
def runSinkLoop (rs : RetryConfig)
    (p : SinkRecord → Nat → Except ConnectorError Unit) (ackOk : Bool)
    (shutdownRes : Except ConnectorError Unit)
    (msgs : List SinkRecord) : SinkLoopState :=
  let st := msgs.foldl (sinkStep rs p ackOk) initialSinkState
  match shutdownRes with
  | .ok _ =>
    { st with shutdownCalls := st.shutdownCalls + 1, healthy := false,
              result := .ok () }
  | .error e =>
    { st with shutdownCalls := st.shutdownCalls + 1, result := .error e }

/-- A retryable error is not classified as invalid data. -/
lemma ConnectorError.retryable_not_invalid (e : ConnectorError)
    (h : e.is_retryable = true) : e.is_invalid_data = false := by
  cases e <;> simp_all [ConnectorError.is_retryable, ConnectorError.is_invalid_data]

/-- Shifting the exponential backoff schedule by one step. -/
lemma range_map_backoff_succ (rs : RetryConfig) (a n : Nat) :
    (List.range (n + 1)).map
        (fun i => RetryStrategy.calculate_backoff rs (a + 1 + i)) =
      RetryStrategy.calculate_backoff rs (a + 1) ::
        (List.range n).map
          (fun i => RetryStrategy.calculate_backoff rs (a + 1 + 1 + i)) := by
  rw [List.range_succ_eq_map, List.map_cons, List.map_map]
  congr 1
  apply List.map_congr_left
  intro i _
  simp only [Function.comp_apply]
  congr 1
  omega

/-- Trace of the retry loop on a plugin that fails with the same retryable
error at every attempt: starting at retry counter `a`, the loop makes
`max_retries - a + 1` further calls, sleeps the scheduled backoffs, and
returns the error. -/
lemma pwrAux_const_retryable (rs : RetryConfig)
    (p : Nat → Except ConnectorError Unit) (e : ConnectorError)
    (he : ∀ n, p n = .error e) (hr : e.is_retryable = true) :
    ∀ a, pwrAux rs p a =
      ⟨.error e, rs.max_retries - a + 1,
       (List.range (rs.max_retries - a)).map
         (fun i => RetryStrategy.calculate_backoff rs (a + 1 + i))⟩ := by
  suffices H : ∀ n a, rs.max_retries - a = n →
      pwrAux rs p a =
        ⟨.error e, rs.max_retries - a + 1,
         (List.range (rs.max_retries - a)).map
           (fun i => RetryStrategy.calculate_backoff rs (a + 1 + i))⟩ by
    intro a; exact H (rs.max_retries - a) a rfl
  intro n
  induction n with
  | zero =>
    intro a ha
    have hg : retryGuard rs e a = false := by
      simp [retryGuard, RetryStrategy.should_retry]
      omega
    rw [pwrAux, he a]
    simp [hg, ConnectorError.retryable_not_invalid e hr, ha]
  | succ n ih =>
    intro a ha
    have hg : retryGuard rs e a = true := by
      simp [retryGuard, RetryStrategy.should_retry, hr]
      omega
    have ha1 : rs.max_retries - (a + 1) = n := by omega
    rw [pwrAux, he a]
    simp only [hg, dite_true, ih (a + 1) ha1]
    simp only [ProcessOutcome.mk.injEq]
    refine ⟨by trivial, by omega, ?_⟩
    rw [ha, ha1, range_map_backoff_succ]

/-- Every backoff recorded by the retry loop follows the exponential
schedule: the `i`-th backoff (0-indexed) slept after starting at retry
counter `a` is `calculate_backoff (a + 1 + i)`. -/
lemma pwrAux_backoffs_get (rs : RetryConfig)
    (p : Nat → Except ConnectorError Unit) :
    ∀ a i v, (pwrAux rs p a).backoffs.get? i = some v →
      v = RetryStrategy.calculate_backoff rs (a + 1 + i) := by
  suffices H : ∀ n a, rs.max_retries - a = n → ∀ i v,
      (pwrAux rs p a).backoffs.get? i = some v →
      v = RetryStrategy.calculate_backoff rs (a + 1 + i) by
    intro a; exact H (rs.max_retries - a) a rfl
  intro n
  induction n with
  | zero =>
    intro a ha i v hv
    rw [pwrAux] at hv
    cases hp : p a with
    | ok u =>
      rw [hp] at hv
      simp at hv
    | error e =>
      rw [hp] at hv
      have hg : retryGuard rs e a = false := by
        simp [retryGuard, RetryStrategy.should_retry]
        omega
      rcases hi : e.is_invalid_data <;> simp [hg, hi] at hv
  | succ n ih =>
    intro a ha i v hv
    rw [pwrAux] at hv
    cases hp : p a with
    | ok u =>
      rw [hp] at hv
      simp at hv
    | error e =>
      rw [hp] at hv
      by_cases hg : retryGuard rs e a = true
      · simp only [hg, dite_true] at hv
        rcases i with _ | i
        · simp at hv
          rw [← hv]
        · simp only [List.get?] at hv
          have hrec := ih (a + 1) (by omega) i v (by simpa using hv)
          rw [hrec]
          congr 1
          omega
      · rcases hi : e.is_invalid_data <;> simp [hg, hi] at hv

/-- Plugin succeeds at attempt `a`: one call, no backoff. -/
lemma pwrAux_ok (rs : RetryConfig) (p : Nat → Except ConnectorError Unit)
    (a : Nat) (hp : p a = .ok ()) : pwrAux rs p a = ⟨.ok (), 1, []⟩ := by
  rw [pwrAux, hp]

/-- Plugin fails at attempt `a` with an error that is neither retryable nor
invalid data (e.g. `Fatal`): the error is returned after a single call. -/
lemma pwrAux_terminal (rs : RetryConfig)
    (p : Nat → Except ConnectorError Unit) (a : Nat) (e : ConnectorError)
    (hp : p a = .error e) (hr : e.is_retryable = false)
    (hi : e.is_invalid_data = false) :
    pwrAux rs p a = ⟨.error e, 1, []⟩ := by
  have hg : retryGuard rs e a = false := by simp [retryGuard, hr]
  rw [pwrAux, hp]
  simp [hg, hi]

/-- Plugin fails at attempt `a` with `InvalidData`: the record is skipped
and the loop returns `Ok` after a single call. -/
lemma pwrAux_invalid (rs : RetryConfig)
    (p : Nat → Except ConnectorError Unit) (a : Nat) (e : ConnectorError)
    (hp : p a = .error e) (hr : e.is_retryable = false)
    (hi : e.is_invalid_data = true) :
    pwrAux rs p a = ⟨.ok (), 1, []⟩ := by
  have hg : retryGuard rs e a = false := by simp [retryGuard, hr]
  rw [pwrAux, hp]
  simp [hg, hi]

/-- Each loop iteration records exactly one received message. -/
lemma sinkStep_received (rs : RetryConfig)
    (p : SinkRecord → Nat → Except ConnectorError Unit) (ackOk : Bool)
    (st : SinkLoopState) (m : SinkRecord) :
    (sinkStep rs p ackOk st m).received = st.received + 1 := by
  unfold sinkStep
  cases h : (process_with_retry rs (p m)).result <;> simp [h] <;> split <;> simp

/-- Each loop iteration appends exactly one attempts entry. -/
lemma sinkStep_attempts_len (rs : RetryConfig)
    (p : SinkRecord → Nat → Except ConnectorError Unit) (ackOk : Bool)
    (st : SinkLoopState) (m : SinkRecord) :
    (sinkStep rs p ackOk st m).attemptsPerMsg.length =
      st.attemptsPerMsg.length + 1 := by
  unfold sinkStep
  cases h : (process_with_retry rs (p m)).result <;> simp [h] <;> split <;> simp

/-- The loop body never calls `connector.shutdown`. -/
lemma sinkStep_shutdownCalls (rs : RetryConfig)
    (p : SinkRecord → Nat → Except ConnectorError Unit) (ackOk : Bool)
    (st : SinkLoopState) (m : SinkRecord) :
    (sinkStep rs p ackOk st m).shutdownCalls = st.shutdownCalls := by
  unfold sinkStep
  cases h : (process_with_retry rs (p m)).result <;> simp [h] <;> split <;> simp

/-- The main loop consumes every delivered message, whatever the plugin
returns: the received counter grows by the number of messages. -/
lemma foldl_sinkStep_received (rs : RetryConfig)
    (p : SinkRecord → Nat → Except ConnectorError Unit) (ackOk : Bool) :
    ∀ (msgs : List SinkRecord) (st : SinkLoopState),
      (msgs.foldl (sinkStep rs p ackOk) st).received =
        st.received + msgs.length := by
  intro msgs
  induction msgs with
  | nil => intro st; simp
  | cons m rest ih =>
    intro st
    simp only [List.foldl_cons, ih, sinkStep_received, List.length_cons]
    omega

/-- One attempts entry per delivered message. -/
lemma foldl_sinkStep_attempts_len (rs : RetryConfig)
    (p : SinkRecord → Nat → Except ConnectorError Unit) (ackOk : Bool) :
    ∀ (msgs : List SinkRecord) (st : SinkLoopState),
      (msgs.foldl (sinkStep rs p ackOk) st).attemptsPerMsg.length =
        st.attemptsPerMsg.length + msgs.length := by
  intro msgs
  induction msgs with
  | nil => intro st; simp
  | cons m rest ih =>
    intro st
    simp only [List.foldl_cons, ih, sinkStep_attempts_len, List.length_cons]
    omega

/-- The main loop never calls `connector.shutdown`. -/
lemma foldl_sinkStep_shutdownCalls (rs : RetryConfig)
    (p : SinkRecord → Nat → Except ConnectorError Unit) (ackOk : Bool) :
    ∀ (msgs : List SinkRecord) (st : SinkLoopState),
      (msgs.foldl (sinkStep rs p ackOk) st).shutdownCalls =
        st.shutdownCalls := by
  intro msgs
  induction msgs with
  | nil => intro st; simp
  | cons m rest ih =>
    intro st
    simp only [List.foldl_cons, ih, sinkStep_shutdownCalls]

/-- Test fixture: a first broker message on topic `/default/t1`. -/
def msgA : SinkRecord :=
  ⟨[1], [], ⟨"/default/t1", 0, 1000, "msg-0", "prod-1"⟩, none⟩

/-- Test fixture: a second broker message on topic `/default/t1`. -/
def msgB : SinkRecord :=
  ⟨[2], [], ⟨"/default/t1", 1, 1001, "msg-1", "prod-1"⟩, none⟩

/-- Test plugin: `process` returns `Fatal` for the first fixture message and
succeeds on every other record. -/
def fatalOnFirst : SinkRecord → Nat → Except ConnectorError Unit :=
  fun r _ =>
    if r.message_id = "msg-0" then .error (.Fatal "write failed") else .ok ()

/-- Test plugin: `process` returns `Retryable` for the first fixture
message on every attempt and succeeds on every other record. -/
def retryOnFirst : SinkRecord → Nat → Except ConnectorError Unit :=
  fun r _ =>
    if r.message_id = "msg-0" then .error (.Retryable "transient") else .ok ()

/-- Test plugin: `process` returns `InvalidData` for the first fixture
message and succeeds on every other record. -/
def invalidOnFirst : SinkRecord → Nat → Except ConnectorError Unit :=
  fun r _ =>
    if r.message_id = "msg-0" then .error (.InvalidData "bad payload" r.payload)
    else .ok ()

/-- Claim C1, counterexample.  With the plugin returning `Fatal` for the
first of two delivered messages, `SinkRuntime::run` does not stop: it keeps
consuming (received = 2, the plugin is invoked once for each message), the
fatal error is recorded on the errored counter instead of being propagated
(`run` returns `Ok`), and the second message is acknowledged.  This refutes
"the runtime does not continue consuming further messages after a Fatal
plugin error" and "SinkRuntime::run propagates that error". -/
theorem c1_counterexample :
    runSinkLoop ⟨3, 100, 30000⟩ fatalOnFirst true (.ok ()) [msgA, msgB] =
      ⟨2, 1, 1, 0, 0, ["msg-1"], [1, 1], 1, false, .ok ()⟩ := by
  simp [runSinkLoop, sinkStep, initialSinkState, process_with_retry, pwrAux,
    fatalOnFirst, msgA, msgB, retryGuard, RetryStrategy.should_retry,
    ConnectorError.is_retryable, ConnectorError.is_invalid_data,
    SinkRecord.message_id]

/-- Claim C1, amended.  A `Fatal` result from the plugin's process call is
returned by `process_with_retry` without any retry; on that result the main
loop increments the errored counter, does not acknowledge the record, and
keeps consuming: every subsequent message is still received and handed to
the plugin, `run` does not propagate the error, and `shutdown()` is called
exactly once — when the shutdown flag ends the loop, not because of the
error. -/
theorem c1_amended (rs : RetryConfig)
    (p : SinkRecord → Nat → Except ConnectorError Unit) (ackOk : Bool)
    (m : SinkRecord) (msg : String) (rest : List SinkRecord)
    (hp : p m 0 = .error (.Fatal msg)) :
    sinkStep rs p ackOk initialSinkState m =
      { initialSinkState with
          received := 1, errored := 1, attemptsPerMsg := [1] } ∧
    (runSinkLoop rs p ackOk (.ok ()) (m :: rest)).received = rest.length + 1 ∧
    (runSinkLoop rs p ackOk (.ok ()) (m :: rest)).attemptsPerMsg.length =
      rest.length + 1 ∧
    (runSinkLoop rs p ackOk (.ok ()) (m :: rest)).shutdownCalls = 1 ∧
    (runSinkLoop rs p ackOk (.ok ()) (m :: rest)).result = .ok () := by
  have hterm := pwrAux_terminal rs (p m) 0 (.Fatal msg) hp rfl rfl
  have hstep : sinkStep rs p ackOk initialSinkState m =
      { initialSinkState with
          received := 1, errored := 1, attemptsPerMsg := [1] } := by
    simp [sinkStep, process_with_retry, hterm, initialSinkState]
  refine ⟨hstep, ?_, ?_, ?_, ?_⟩
  · simp only [runSinkLoop, List.foldl_cons, hstep, foldl_sinkStep_received]
    omega
  · simp only [runSinkLoop, List.foldl_cons, hstep,
      foldl_sinkStep_attempts_len]
    simp only [List.length_cons, List.length_nil]
    omega
  · simp only [runSinkLoop, List.foldl_cons, hstep,
      foldl_sinkStep_shutdownCalls]
    simp [initialSinkState]
  · simp [runSinkLoop]

/-- Claim C1 amended, witness: concrete run of the amended statement with
`max_retries = 3` and the fatal-on-first fixture plugin. -/
theorem c1_amended_witness :
    sinkStep ⟨3, 100, 30000⟩ fatalOnFirst true initialSinkState msgA =
      { initialSinkState with
          received := 1, errored := 1, attemptsPerMsg := [1] } ∧
    (runSinkLoop ⟨3, 100, 30000⟩ fatalOnFirst true (.ok ())
        [msgA, msgB]).received = [msgB].length + 1 ∧
    (runSinkLoop ⟨3, 100, 30000⟩ fatalOnFirst true (.ok ())
        [msgA, msgB]).attemptsPerMsg.length = [msgB].length + 1 ∧
    (runSinkLoop ⟨3, 100, 30000⟩ fatalOnFirst true (.ok ())
        [msgA, msgB]).shutdownCalls = 1 ∧
    (runSinkLoop ⟨3, 100, 30000⟩ fatalOnFirst true (.ok ())
        [msgA, msgB]).result = .ok () :=
  c1_amended ⟨3, 100, 30000⟩ fatalOnFirst true msgA "write failed" [msgB]
    (by simp [fatalOnFirst, msgA, SinkRecord.message_id])

/-- Claim C2: with `max_retries = k` and a plugin returning `Retryable` on
every invocation for the first message, the runtime attempts that record
exactly `k + 1` times, retries `k` times, never acknowledges it, counts it
once on the errored counter, and stays in the loop: the following message is
still processed, acknowledged and counted as succeeded, after which the
normal shutdown runs. -/
theorem c2_retry_exhaustion (k base maxb : Nat)
    (p : SinkRecord → Nat → Except ConnectorError Unit)
    (m m2 : SinkRecord) (e : ConnectorError)
    (he : ∀ n, p m n = .error e) (hr : e.is_retryable = true)
    (h2 : p m2 0 = .ok ()) :
    runSinkLoop ⟨k, base, maxb⟩ p true (.ok ()) [m, m2] =
      { received := 2, succeeded := 1, errored := 1, retried := k,
        invalid := 0, acked := [m2.message_id], attemptsPerMsg := [k + 1, 1],
        shutdownCalls := 1, healthy := false, result := .ok () } := by
  have h1 := pwrAux_const_retryable ⟨k, base, maxb⟩ (p m) e he hr 0
  have h2s := pwrAux_ok ⟨k, base, maxb⟩ (p m2) 0 h2
  simp [runSinkLoop, sinkStep, initialSinkState, process_with_retry, h1, h2s]

/-- Claim C2, witness: `k = 2`, a plugin that always answers `Retryable` for
the first fixture message and succeeds on the second. -/
theorem c2_retry_exhaustion_witness :
    runSinkLoop ⟨2, 100, 30000⟩ retryOnFirst true (.ok ())
        [msgA, msgB] =
      { received := 2, succeeded := 1, errored := 1, retried := 2,
        invalid := 0, acked := [msgB.message_id],
        attemptsPerMsg := [2 + 1, 1], shutdownCalls := 1, healthy := false,
        result := .ok () } :=
  c2_retry_exhaustion 2 100 30000 retryOnFirst msgA msgB
    (.Retryable "transient")
    (fun n => by simp [retryOnFirst, msgA, SinkRecord.message_id])
    rfl
    (by simp [retryOnFirst, msgB, SinkRecord.message_id])

/-- Claim C3, counterexample.  With the plugin returning `InvalidData` for
the single delivered message, the runtime skips and acknowledges the record,
but no `invalid_data` counter is incremented (`invalid = 0`): the runtime
has no call that increments it, and the record is counted on the succeeded
counter instead.  This refutes "increments the invalid_data counter for
it". -/
theorem c3_counterexample :
    runSinkLoop ⟨3, 100, 30000⟩ invalidOnFirst true (.ok ()) [msgA] =
      ⟨1, 1, 0, 0, 0, ["msg-0"], [1], 1, false, .ok ()⟩ := by
  simp [runSinkLoop, sinkStep, initialSinkState, process_with_retry, pwrAux,
    invalidOnFirst, msgA, retryGuard, RetryStrategy.should_retry,
    ConnectorError.is_retryable, ConnectorError.is_invalid_data,
    SinkRecord.message_id]

/-- Claim C3, amended.  A record for which the plugin returns `InvalidData`
is skipped without any retry (a single process call), the underlying broker
message is acknowledged, the errored counter is not incremented — but no
invalid_data counter is incremented either: after the acknowledgement the
record is counted on the succeeded counter. -/
theorem c3_amended (rs : RetryConfig)
    (p : SinkRecord → Nat → Except ConnectorError Unit)
    (st : SinkLoopState) (m : SinkRecord) (msg : String) (bytes : List Nat)
    (hp : p m 0 = .error (.InvalidData msg bytes)) :
    sinkStep rs p true st m =
      { st with
          received := st.received + 1
          attemptsPerMsg := st.attemptsPerMsg ++ [1]
          acked := st.acked ++ [m.message_id]
          succeeded := st.succeeded + 1 } := by
  have h := pwrAux_invalid rs (p m) 0 (.InvalidData msg bytes) hp rfl rfl
  simp [sinkStep, process_with_retry, h]

/-- Claim C3 amended, witness: concrete step on the invalid-data fixture. -/
theorem c3_amended_witness :
    sinkStep ⟨3, 100, 30000⟩ invalidOnFirst true initialSinkState msgA =
      { initialSinkState with
          received := initialSinkState.received + 1
          attemptsPerMsg := initialSinkState.attemptsPerMsg ++ [1]
          acked := initialSinkState.acked ++ [msgA.message_id]
          succeeded := initialSinkState.succeeded + 1 } :=
  c3_amended ⟨3, 100, 30000⟩ invalidOnFirst initialSinkState msgA
    "bad payload" msgA.payload
    (by simp [invalidOnFirst, msgA, SinkRecord.message_id])

/-- Claim C4: every backoff the retry loop sleeps follows the exponential
schedule — the backoff before retry attempt `N` (1-indexed) equals
`min(base_backoff_ms * 2^(N-1), max_backoff_ms)` (jitter is not
implemented) — and the loop's retry guard declines retry `N` exactly when
`N > max_retries` or the plugin's error is not `Retryable`. -/
theorem c4_backoff_schedule :
    (∀ (rs : RetryConfig) (p : Nat → Except ConnectorError Unit) (N v : Nat),
      1 ≤ N → (process_with_retry rs p).backoffs.get? (N - 1) = some v →
      v = min (rs.retry_backoff_ms * 2 ^ (N - 1)) rs.max_backoff_ms) ∧
    (∀ (rs : RetryConfig) (e : ConnectorError) (N : Nat), 1 ≤ N →
      (retryGuard rs e (N - 1) = false ↔
        (rs.max_retries < N ∨ e.is_retryable = false))) := by
  constructor
  · intro rs p N v hN hv
    have h := pwrAux_backoffs_get rs p 0 (N - 1) v hv
    rw [h]
    simp [RetryStrategy.calculate_backoff]
  · intro rs e N hN
    rcases hr : e.is_retryable <;>
      simp [retryGuard, RetryStrategy.should_retry, hr] <;> omega

/-- Claim C4, witness: with `base = 100`, `max_backoff = 30000`,
`max_retries = 3` and an always-retryable plugin, the first slept backoff is
100 ms and the guard declines a fourth retry. -/
theorem c4_backoff_schedule_witness :
    (100 : Nat) = min (100 * 2 ^ (1 - 1)) 30000 ∧
    (retryGuard ⟨3, 100, 30000⟩ (.Retryable "x") (4 - 1) = false ↔
      ((3 : Nat) < 4 ∨ (ConnectorError.Retryable "x").is_retryable = false)) :=
  ⟨c4_backoff_schedule.1 ⟨3, 100, 30000⟩
      (fun _ => .error (.Retryable "x")) 1 100 (by decide)
      (by simp [process_with_retry, pwrAux, retryGuard,
        RetryStrategy.should_retry, RetryStrategy.calculate_backoff,
        ConnectorError.is_retryable, ConnectorError.is_invalid_data]),
   c4_backoff_schedule.2 ⟨3, 100, 30000⟩ (.Retryable "x") 4 (by decide)⟩

/-- `ProducerConfig` (runtime/source_runtime.rs lines 22-30). -/
structure ProducerConfig where
  topic : String
  partitions : Nat
  reliable_dispatch : Bool
deriving Repr, DecidableEq

/-- `SourceRecord` (message.rs lines 204-217). -/
structure SourceRecord where
  topic : String
  payload : List Nat
  attributes : List (String × String)
  key : Option String
  producer_config : Option ProducerConfig
deriving Repr, DecidableEq

/-- `Offset` from `traits.rs` (not among the sources).  Modelled from the
spec: paragraph 3 defines it as the opaque record `{topic, position}`, and
the call site `Offset::new(record.topic, idx as u64)`
(runtime/source_runtime.rs line 267) fixes the constructor. -/
structure Offset where
  topic : String
  position : Nat
deriving Repr, DecidableEq

/-- Observable outcome of one `SourceRuntime::publish_batch` call: the
returned result, the `producer.send` calls performed in order (topic and
payload of each), and the number of `record_success` increments. -/
structure PublishOutcome where
  result : Except ConnectorError (List Offset)
  sends : List (String × List Nat)
  succeeded : Nat
deriving Repr, DecidableEq

/-- The loop of `SourceRuntime::publish_batch`
(runtime/source_runtime.rs lines 230-281) from record index `idx` on.
For each record: look up the pre-created producer for its topic (absent ⇒
`Fatal`, no send); send (outcome given by `sendOk` at the record's index);
on success push `Offset::new(record.topic, idx)` and continue; on failure
return a `Retryable` error at once, dropping the offsets collected so
far. -/
def publishAux (prods : List String) (sendOk : Nat → Bool) :
    Nat → List SourceRecord → PublishOutcome
  | _, [] => ⟨.ok [], [], 0⟩
  | idx, r :: rest =>
    if prods.contains r.topic then
      if sendOk idx then
        let o := publishAux prods sendOk (idx + 1) rest
        ⟨o.result.map (fun offs => ⟨r.topic, idx⟩ :: offs),
         (r.topic, r.payload) :: o.sends, o.succeeded + 1⟩
      else
        ⟨.error (.Retryable "Failed to publish batch"),
         [(r.topic, r.payload)], 0⟩
    else ⟨.error (.Fatal "No producer found for topic"), [], 0⟩

/-- `SourceRuntime::publish_batch` starts at index 0. -/
def publish_batch (prods : List String) (sendOk : Nat → Bool)
    (records : List SourceRecord) : PublishOutcome :=
  publishAux prods sendOk 0 records

/-- Observable state of `SourceRuntime::process_polling_loop`: the argument
of every `connector.commit` call in order, the errored-counter value, the
`producer.send` calls in order, the success count, and the batch sizes
recorded. -/
structure SourceLoopState where
  commits : List (List Offset)
  errored : Nat
  sends : List (String × List Nat)
  succeeded : Nat
  batches : List Nat
deriving Repr, DecidableEq

/-- State at entry of the polling loop. -/
def initialSourceState : SourceLoopState := ⟨[], 0, [], 0, []⟩

/-- One iteration of `SourceRuntime::process_polling_loop`
(runtime/source_runtime.rs lines 191-221).  Match arms in source order:
non-empty poll → record batch size, publish, on `Ok` call
`connector.commit(offsets)` (a commit failure is only logged), on `Err` log
and increment the errored counter; empty poll → sleep; poll error → log,
increment the errored counter, sleep.  Every arm continues the loop. -/
def sourceStep (prods : List String) (sendOk : Nat → Bool)
    (st : SourceLoopState)
    (poll : Except ConnectorError (List SourceRecord)) : SourceLoopState :=
  match poll with
  | .ok records =>
    if records.isEmpty then st
    else
      let o := publish_batch prods sendOk records
      let st1 := { st with
        batches := st.batches ++ [records.length]
        sends := st.sends ++ o.sends
        succeeded := st.succeeded + o.succeeded }
      match o.result with
      | .ok offsets => { st1 with commits := st1.commits ++ [offsets] }
      | .error _ => { st1 with errored := st1.errored + 1 }
  | .error _ => { st with errored := st.errored + 1 }

/-- The polling loop over the finite list of poll results produced before
the shutdown flag is observed; `sendOk i j` is the outcome of the `j`-th
send of iteration `i`. -/
def sourceLoopAux (prods : List String) (sendOk : Nat → Nat → Bool)
    (i : Nat) (st : SourceLoopState) :
    List (Except ConnectorError (List SourceRecord)) → SourceLoopState
  | [] => st
  | poll :: rest =>
    sourceLoopAux prods sendOk (i + 1) (sourceStep prods (sendOk i) st poll)
      rest

/-- `SourceRuntime::process_polling_loop` from the initial state. -/
def sourcePollLoop (prods : List String) (sendOk : Nat → Nat → Bool)
    (polls : List (Except ConnectorError (List SourceRecord))) :
    SourceLoopState :=
  sourceLoopAux prods sendOk 0 initialSourceState polls

/-- When every producer exists and every send succeeds, `publish_batch`
sends each record in order and returns one offset per record whose
position is the record's index. -/
lemma publishAux_all_ok (prods : List String) (sendOk : Nat → Bool)
    (hs : ∀ i, sendOk i = true) :
    ∀ (records : List SourceRecord) (idx : Nat),
      (∀ r ∈ records, prods.contains r.topic = true) →
      publishAux prods sendOk idx records =
        ⟨.ok ((records.enumFrom idx).map fun p => ⟨p.2.topic, p.1⟩),
         records.map (fun r => (r.topic, r.payload)), records.length⟩ := by
  intro records
  induction records with
  | nil => intro idx _; rfl
  | cons r rest ih =>
    intro idx hmem
    have hr : prods.contains r.topic = true := hmem r (by simp)
    have hrest : ∀ x ∈ rest, prods.contains x.topic = true := by
      intro x hx; exact hmem x (by simp [hx])
    simp only [publishAux, hr, hs idx, if_true, ih (idx + 1) hrest]
    simp [List.enumFrom, Except.map]

/-- Test fixture: a polled record for topic `/default/a`. -/
def srA : SourceRecord := ⟨"/default/a", [10], [], none, none⟩

/-- Test fixture: a polled record for topic `/default/b`. -/
def srB : SourceRecord := ⟨"/default/b", [20], [], none, none⟩

/-- Claim C5: for a non-empty poll batch in which every send succeeds, the
source runtime publishes the records in returned order and then calls
`connector.commit` exactly once, with one `Offset` per record whose topic
is the record's topic and whose position is the record's zero-based index
in the polled list. -/
theorem c5_publish_then_commit (prods : List String)
    (sendOk : Nat → Nat → Bool) (records : List SourceRecord)
    (hne : records ≠ [])
    (hp : ∀ r ∈ records, prods.contains r.topic = true)
    (hs : ∀ j, sendOk 0 j = true) :
    sourcePollLoop prods sendOk [.ok records] =
      { commits := [records.enum.map fun p => ⟨p.2.topic, p.1⟩]
        errored := 0
        sends := records.map (fun r => (r.topic, r.payload))
        succeeded := records.length
        batches := [records.length] } := by
  have hemp : records.isEmpty = false := by
    cases records with
    | nil => exact absurd rfl hne
    | cons a l => rfl
  have hpub := publishAux_all_ok prods (sendOk 0) hs records 0 hp
  simp only [sourcePollLoop, sourceLoopAux, sourceStep, hemp, publish_batch,
    hpub, initialSourceState]
  simp [List.enum, initialSourceState]

/-- Claim C5, witness: two records for topics `/default/a` and
`/default/b`, both producers declared, all sends succeed. -/
theorem c5_publish_then_commit_witness :
    sourcePollLoop ["/default/a", "/default/b"] (fun _ _ => true)
        [.ok [srA, srB]] =
      { commits := [[srA, srB].enum.map fun p => ⟨p.2.topic, p.1⟩]
        errored := 0
        sends := [srA, srB].map (fun r => (r.topic, r.payload))
        succeeded := [srA, srB].length
        batches := [[srA, srB].length] } :=
  c5_publish_then_commit ["/default/a", "/default/b"] (fun _ _ => true)
    [srA, srB] (by decide)
    (by intro r hr; fin_cases hr <;> rfl)
    (fun _ => rfl)

/-- Claim C6, counterexample.  With one producer per topic and the broker
failing every send of the first iteration, the polled batch `[srA]` is
abandoned after exactly one send attempt — no retry of the batch under any
schedule — commit is skipped, the errored counter is incremented, and the
loop continues with the next poll (whose batch `[srB]` succeeds and is
committed).  This refutes "the source runtime retries the whole batch under
the retry strategy". -/
theorem c6_counterexample :
    sourcePollLoop ["/default/a", "/default/b"] (fun i _ => i == 1)
        [.ok [srA], .ok [srB]] =
      { commits := [[⟨"/default/b", 0⟩]]
        errored := 1
        sends := [("/default/a", [10]), ("/default/b", [20])]
        succeeded := 1
        batches := [1, 1] } := by
  rfl

/-- Claim C6, amended.  When a `producer.send` fails inside
`publish_batch`, the batch is abandoned immediately with a `Retryable`
error after that single send attempt — there is no retry of the batch at
any level; the polling loop then skips `connector.commit`, increments the
errored counter, and continues polling with the remaining poll results. -/
theorem c6_amended (prods : List String) (sendOk2 : Nat → Nat → Bool)
    (i : Nat) (st : SourceLoopState) (r : SourceRecord)
    (rest : List SourceRecord)
    (polls2 : List (Except ConnectorError (List SourceRecord)))
    (hmem : prods.contains r.topic = true) (hfail : sendOk2 i 0 = false) :
    publish_batch prods (sendOk2 i) (r :: rest) =
      ⟨.error (.Retryable "Failed to publish batch"),
       [(r.topic, r.payload)], 0⟩ ∧
    sourceLoopAux prods sendOk2 i st (.ok (r :: rest) :: polls2) =
      sourceLoopAux prods sendOk2 (i + 1)
        { st with
            batches := st.batches ++ [(r :: rest).length]
            sends := st.sends ++ [(r.topic, r.payload)]
            errored := st.errored + 1 } polls2 := by
  have hpub : publish_batch prods (sendOk2 i) (r :: rest) =
      ⟨.error (.Retryable "Failed to publish batch"),
       [(r.topic, r.payload)], 0⟩ := by
    have hm : r.topic ∈ prods := by simpa using hmem
    simp [publish_batch, publishAux, hm, hfail]
  refine ⟨hpub, ?_⟩
  simp only [sourceLoopAux, sourceStep, List.isEmpty_cons, hpub]
  rfl

/-- Claim C6 amended, witness: a single failing record on `/default/a`. -/
theorem c6_amended_witness :
    publish_batch ["/default/a"] (fun _ => false) [srA] =
      ⟨.error (.Retryable "Failed to publish batch"),
       [(srA.topic, srA.payload)], 0⟩ ∧
    sourceLoopAux ["/default/a"] (fun _ _ => false) 0 initialSourceState
        [.ok [srA]] =
      sourceLoopAux ["/default/a"] (fun _ _ => false) 1
        { initialSourceState with
            batches := initialSourceState.batches ++ [[srA].length]
            sends := initialSourceState.sends ++ [(srA.topic, srA.payload)]
            errored := initialSourceState.errored + 1 } [] :=
  c6_amended ["/default/a"] (fun _ _ => false) 0 initialSourceState srA []
    [] rfl rfl

/-- `TopicMapping` of the Delta Lake sink.  The connector's `config.rs` is
not among the sources; the fields used by connector.rs are `topic`,
`delta_table_path` and the optional per-topic `batch_size`. -/
structure TopicMapping where
  topic : String
  delta_table_path : String
  batch_size : Option Nat
deriving Repr, DecidableEq

/-- Modelled from the spec: `effective_batch_size(T)` is the per-topic
override, or the global `batch_size` when absent (spec paragraph 4.3; the
sibling Qdrant connector's `TopicMapping::effective_batch_size` implements
exactly `self.batch_size.unwrap_or(global)`). -/
def TopicMapping.effective_batch_size (m : TopicMapping) (global : Nat) : Nat :=
  m.batch_size.getD global

/-- The parts of `DeltaLakeSinkConfig` used by the buffering logic: the
topic mappings and the global `deltalake.batch_size`. -/
structure DeltaLakeConfig where
  topic_mappings : List TopicMapping
  batch_size : Nat
deriving Repr, DecidableEq

/-- The per-topic record buffers of `DeltaLakeSinkConnector`
(`buffers: HashMap<String, Vec<SinkRecord>>`), as a total map; an absent
key and an empty vector are both the empty list. -/
def DeltaBuffers : Type := String → List SinkRecord

/-- Point update of the buffer map (`HashMap::insert` / `entry` +
mutation / `remove`). -/
def bufferUpdate (b : DeltaBuffers) (t : String) (v : List SinkRecord) :
    DeltaBuffers :=
  fun u => if u = t then v else b u

/-- `self.config.deltalake.topic_mappings.iter().find(|m| m.topic == topic)`
(connector.rs lines 252-258 and 339-345). -/
def findMapping (cfg : DeltaLakeConfig) (t : String) : Option TopicMapping :=
  cfg.topic_mappings.find? (fun m => m.topic == t)

/-- The effective batch size of topic `t`, when `t` has a mapping. -/
def effSize (cfg : DeltaLakeConfig) (t : String) : Option Nat :=
  (findMapping cfg t).map (fun m => m.effective_batch_size cfg.batch_size)

/-- `DeltaLakeSinkConnector::flush_topic` (connector.rs lines 245-267):
remove the buffer for `t`; if it was empty (or absent) return `Ok`;
otherwise find the mapping (absent ⇒ `Fatal`) and write the batch — table
management and the Delta write are abstracted into the boolean `writeOk`
(a failed write is the `Retryable` error of `write_batch`,
connector.rs lines 225-233). -/
def flush_topic (cfg : DeltaLakeConfig) (writeOk : Bool) (b : DeltaBuffers)
    (t : String) : Except ConnectorError DeltaBuffers :=
  let records := b t
  let b2 := bufferUpdate b t []
  if records.isEmpty then .ok b2
  else
    match findMapping cfg t with
    | none => .error (.Fatal "No mapping found for topic")
    | some _ =>
      if writeOk then .ok b2
      else .error (.Retryable "Failed to write to Delta table")

/-- `DeltaLakeSinkConnector::process` (connector.rs lines 332-361): push
the record into its topic's buffer, find the mapping (absent ⇒ `Fatal`),
and flush the topic when the buffer has reached the effective batch
size. -/
def DeltaLakeSinkConnector.process (cfg : DeltaLakeConfig)
    (writeOk : String → Bool) (b : DeltaBuffers) (r : SinkRecord) :
    Except ConnectorError DeltaBuffers :=
  let t := r.topic
  let buf := b t ++ [r]
  let b1 := bufferUpdate b t buf
  match findMapping cfg t with
  | none => .error (.Fatal "No mapping found for topic")
  | some m =>
    if m.effective_batch_size cfg.batch_size ≤ buf.length then
      flush_topic cfg (writeOk t) b1 t
    else .ok b1

/-- `DeltaLakeSinkConnector::process_batch` (connector.rs lines 363-406):
the received records are grouped by topic (`by_topic: HashMap`, iteration
order unspecified — `groups` is that grouping in some order); each group is
appended to its topic's buffer, and the topic is flushed when the buffer
has reached the effective batch size; an error aborts the call. -/
def DeltaLakeSinkConnector.process_batch (cfg : DeltaLakeConfig)
    (writeOk : String → Bool) (b : DeltaBuffers) :
    List (String × List SinkRecord) → Except ConnectorError DeltaBuffers
  | [] => .ok b
  | (t, recs) :: rest =>
    let buf := b t ++ recs
    let b1 := bufferUpdate b t buf
    match findMapping cfg t with
    | none => .error (.Fatal "No mapping found for topic")
    | some m =>
      if m.effective_batch_size cfg.batch_size ≤ buf.length then
        match flush_topic cfg (writeOk t) b1 t with
        | .ok b2 => DeltaLakeSinkConnector.process_batch cfg writeOk b2 rest
        | .error e => .error e
      else DeltaLakeSinkConnector.process_batch cfg writeOk b1 rest

/-- The steady-state buffer invariant: every topic that has a mapping holds
fewer records than its effective batch size. -/
def bufInvariant (cfg : DeltaLakeConfig) (b : DeltaBuffers) : Prop :=
  ∀ t bs, effSize cfg t = some bs → (b t).length < bs

/-- A successful `flush_topic` leaves the topic's buffer empty and every
other buffer untouched. -/
lemma flush_topic_ok (cfg : DeltaLakeConfig) (w : Bool) (b : DeltaBuffers)
    (t : String) (b2 : DeltaBuffers)
    (h : flush_topic cfg w b t = .ok b2) :
    b2 t = [] ∧ ∀ u, u ≠ t → b2 u = b u := by
  unfold flush_topic at h
  by_cases hemp : (b t).isEmpty = true
  · simp only [hemp, if_true] at h
    cases h
    constructor
    · simp [bufferUpdate]
    · intro u hu; simp [bufferUpdate, hu]
  · simp only [hemp] at h
    rcases hf : findMapping cfg t with _ | m <;> rw [hf] at h
    · simp at h
    · rcases w <;> simp at h
      cases h
      constructor
      · simp [bufferUpdate]
      · intro u hu; simp [bufferUpdate, hu]

/-- `process` preserves the buffer invariant when it returns `Ok`. -/
lemma process_preserves_invariant (cfg : DeltaLakeConfig)
    (writeOk : String → Bool) (b : DeltaBuffers) (r : SinkRecord)
    (b2 : DeltaBuffers)
    (hsz : ∀ t bs, effSize cfg t = some bs → 1 ≤ bs)
    (hinv : bufInvariant cfg b)
    (h : DeltaLakeSinkConnector.process cfg writeOk b r = .ok b2) :
    bufInvariant cfg b2 := by
  unfold DeltaLakeSinkConnector.process at h
  rcases hf : findMapping cfg r.topic with _ | m <;> simp only [hf] at h
  · simp at h
  · by_cases hle :
        m.effective_batch_size cfg.batch_size ≤ (b r.topic ++ [r]).length
    · rw [if_pos hle] at h
      obtain ⟨ht2, hu2⟩ := flush_topic_ok _ _ _ _ _ h
      intro u bs hbs
      by_cases hut : u = r.topic
      · subst hut
        rw [ht2]
        simpa using hsz _ _ hbs
      · rw [hu2 u hut]
        simp only [bufferUpdate, if_neg hut]
        exact hinv u bs hbs
    · rw [if_neg hle] at h
      have hb := Except.ok.inj h
      subst hb
      intro u bs hbs
      by_cases hut : u = r.topic
      · subst hut
        have hbs2 : bs = m.effective_batch_size cfg.batch_size := by
          rw [effSize, hf] at hbs
          simpa using hbs.symm
        simp [bufferUpdate]
        simp at hle
        omega
      · simp only [bufferUpdate, if_neg hut]
        exact hinv u bs hbs

/-- `process_batch` preserves the buffer invariant when it returns `Ok`. -/
lemma process_batch_preserves_invariant (cfg : DeltaLakeConfig)
    (writeOk : String → Bool)
    (hsz : ∀ t bs, effSize cfg t = some bs → 1 ≤ bs) :
    ∀ (groups : List (String × List SinkRecord)) (b b2 : DeltaBuffers),
      bufInvariant cfg b →
      DeltaLakeSinkConnector.process_batch cfg writeOk b groups = .ok b2 →
      bufInvariant cfg b2 := by
  intro groups
  induction groups with
  | nil =>
    intro b b2 hinv h
    unfold DeltaLakeSinkConnector.process_batch at h
    have hb := Except.ok.inj h
    subst hb
    exact hinv
  | cons g rest ih =>
    obtain ⟨t, recs⟩ := g
    intro b b2 hinv h
    unfold DeltaLakeSinkConnector.process_batch at h
    rcases hf : findMapping cfg t with _ | m <;> simp only [hf] at h
    · simp at h
    · by_cases hle : m.effective_batch_size cfg.batch_size ≤
          (b t ++ recs).length
      · rw [if_pos hle] at h
        rcases hfl : flush_topic cfg (writeOk t)
            (bufferUpdate b t (b t ++ recs)) t with e | b3 <;>
          simp only [hfl] at h
        · simp at h
        · refine ih b3 b2 ?_ h
          obtain ⟨ht3, hu3⟩ := flush_topic_ok _ _ _ _ _ hfl
          intro u bs hbs
          by_cases hut : u = t
          · subst hut
            rw [ht3]
            simpa using hsz _ _ hbs
          · rw [hu3 u hut]
            simp only [bufferUpdate, if_neg hut]
            exact hinv u bs hbs
      · rw [if_neg hle] at h
        refine ih _ b2 ?_ h
        intro u bs hbs
        by_cases hut : u = t
        · subst hut
          have hbs2 : bs = m.effective_batch_size cfg.batch_size := by
            rw [effSize, hf] at hbs
            simpa using hbs.symm
          simp [bufferUpdate]
          simp at hle
          omega
        · simp only [bufferUpdate, if_neg hut]
          exact hinv u bs hbs

/-- Claim C7: provided every mapped topic's effective batch size is at
least 1 and the steady-state invariant held before the call, any `process`
or `process_batch` call of the Delta Lake sink connector that returns `Ok`
leaves every mapped topic's buffer strictly below its
`effective_batch_size` (a flush fires whenever the buffer reaches that
size), and a successful `flush_topic` always leaves the flushed topic's
buffer empty. -/
theorem c7_delta_buffer_invariant :
    (∀ (cfg : DeltaLakeConfig) (writeOk : String → Bool) (b : DeltaBuffers)
        (r : SinkRecord) (b2 : DeltaBuffers),
      (∀ t bs, effSize cfg t = some bs → 1 ≤ bs) →
      bufInvariant cfg b →
      DeltaLakeSinkConnector.process cfg writeOk b r = .ok b2 →
      bufInvariant cfg b2) ∧
    (∀ (cfg : DeltaLakeConfig) (writeOk : String → Bool)
        (groups : List (String × List SinkRecord)) (b b2 : DeltaBuffers),
      (∀ t bs, effSize cfg t = some bs → 1 ≤ bs) →
      bufInvariant cfg b →
      DeltaLakeSinkConnector.process_batch cfg writeOk b groups = .ok b2 →
      bufInvariant cfg b2) ∧
    (∀ (cfg : DeltaLakeConfig) (w : Bool) (b : DeltaBuffers) (t : String)
        (b2 : DeltaBuffers),
      flush_topic cfg w b t = .ok b2 → b2 t = []) :=
  ⟨fun cfg writeOk b r b2 hsz hinv h =>
      process_preserves_invariant cfg writeOk b r b2 hsz hinv h,
   fun cfg writeOk groups b b2 hsz hinv h =>
      process_batch_preserves_invariant cfg writeOk hsz groups b b2 hinv h,
   fun cfg w b t b2 h => (flush_topic_ok cfg w b t b2 h).1⟩

/-- Test fixture: a Delta Lake configuration with a single mapping for
topic `/default/t1` and global batch size 2. -/
def cfgDelta : DeltaLakeConfig :=
  ⟨[⟨"/default/t1", "s3://bucket/table", none⟩], 2⟩

/-- Every effective batch size of the fixture configuration is positive. -/
lemma cfgDelta_sizes : ∀ t bs, effSize cfgDelta t = some bs → 1 ≤ bs := by
  intro t bs h
  simp only [effSize, findMapping, cfgDelta, List.find?] at h
  rcases hbeq : ("/default/t1" == t) <;> rw [hbeq] at h <;> simp at h
  simp [TopicMapping.effective_batch_size] at h
  omega

/-- The empty buffer map satisfies the invariant for the fixture. -/
lemma cfgDelta_empty_invariant : bufInvariant cfgDelta (fun _ => []) := by
  intro t bs h
  have := cfgDelta_sizes t bs h
  simpa using this

/-- Claim C7, witness: processing one record into the empty buffers of the
fixture configuration returns `Ok` and the invariant still holds. -/
theorem c7_delta_buffer_invariant_witness :
    bufInvariant cfgDelta
      (bufferUpdate (fun _ => []) "/default/t1" [msgA]) :=
  c7_delta_buffer_invariant.1 cfgDelta (fun _ => true) (fun _ => [])
    msgA (bufferUpdate (fun _ => []) "/default/t1" [msgA])
    cfgDelta_sizes cfgDelta_empty_invariant rfl

/-- Big-endian byte decomposition of a natural number into `n` bytes
(most significant first). -/
def natToBEBytes : Nat → Nat → List Nat
  | 0, _ => []
  | n + 1, u => natToBEBytes n (u / 256) ++ [u % 256]

/-- Model of Rust's `i64::to_be_bytes`: the 8 big-endian bytes of the
two's-complement representation `x mod 2^64`. -/
def i64_to_be_bytes (x : Int) : List Nat :=
  natToBEBytes 8 (x.emod (2 ^ 64)).toNat

/-- Big-endian recomposition of a byte list into a natural number. -/
def beBytesToNat (bs : List Nat) : Nat :=
  bs.foldl (fun acc b => acc * 256 + b) 0

/-- Model of Rust's `i64::from_be_bytes` on an 8-byte list: the value is
the recomposed unsigned integer reinterpreted in two's complement. -/
def i64_from_be_bytes (bs : List Nat) : Int :=
  let u := beBytesToNat bs
  if u < 2 ^ 63 then (u : Int) else (u : Int) - 2 ^ 64

/-- `SinkRecord::payload_int64` (message.rs lines 138-155): `InvalidData`
unless the payload is exactly 8 bytes, otherwise the big-endian signed
64-bit value. -/
def SinkRecord.payload_int64 (r : SinkRecord) : Except ConnectorError Int :=
  if r.payload.length ≠ 8 then
    .error (.InvalidData "Int64 payload must be exactly 8 bytes" r.payload)
  else .ok (i64_from_be_bytes r.payload)

/-- Whether a result is an `InvalidData` failure. -/
def exceptIsInvalidData {α : Type} : Except ConnectorError α → Bool
  | .error e => e.is_invalid_data
  | .ok _ => false

lemma natToBEBytes_length : ∀ n u, (natToBEBytes n u).length = n := by
  intro n
  induction n with
  | zero => intro u; rfl
  | succ n ih => intro u; simp [natToBEBytes, ih]

lemma foldl_natToBEBytes :
    ∀ (n u acc : Nat),
      (natToBEBytes n u).foldl (fun a b => a * 256 + b) acc =
        acc * 256 ^ n + u % 256 ^ n := by
  intro n
  induction n with
  | zero => intro u acc; simp [natToBEBytes, Nat.mod_one]
  | succ n ih =>
    intro u acc
    rw [natToBEBytes, List.foldl_append, ih]
    have hm : u % 256 ^ (n + 1) = u % 256 + 256 * (u / 256 % 256 ^ n) := by
      rw [pow_succ, mul_comm (256 ^ n) 256, Nat.mod_mul]
    simp only [List.foldl_cons, List.foldl_nil]
    rw [hm, pow_succ]
    ring

lemma beBytesToNat_natToBEBytes (n u : Nat) (h : u < 256 ^ n) :
    beBytesToNat (natToBEBytes n u) = u := by
  unfold beBytesToNat
  rw [foldl_natToBEBytes]
  simp [Nat.mod_eq_of_lt h]

/-- Claim C8: for every 64-bit signed integer `x`, `payload_int64` applied
to a record whose payload is `x.to_be_bytes()` returns `x`; and
`payload_int64` fails — necessarily with an `InvalidData` error — exactly
when the payload length is not 8 bytes. -/
theorem c8_payload_int64_roundtrip :
    (∀ (r : SinkRecord) (x : Int), -(2 ^ 63) ≤ x → x < 2 ^ 63 →
      r.payload = i64_to_be_bytes x →
      r.payload_int64 = .ok x) ∧
    (∀ r : SinkRecord,
      exceptIsInvalidData r.payload_int64 = true ↔ r.payload.length ≠ 8) := by
  constructor
  · intro r x hlo hhi hpay
    have hlen : r.payload.length = 8 := by
      rw [hpay, i64_to_be_bytes, natToBEBytes_length]
    rw [SinkRecord.payload_int64, if_neg (by omega), i64_from_be_bytes]
    rcases le_or_lt 0 x with hx | hx
    · have hm : x.emod (2 ^ 64) = x := Int.emod_eq_of_lt hx (by omega)
      have hu : (x.emod (2 ^ 64)).toNat < 256 ^ 8 := by
        rw [hm]
        omega
      have hval : beBytesToNat r.payload = (x.emod (2 ^ 64)).toNat := by
        rw [hpay, i64_to_be_bytes, beBytesToNat_natToBEBytes _ _ hu]
      simp only [hval, hm]
      rw [if_pos (by omega)]
      congr 1
      omega
    · have h1 : (x + 2 ^ 64).emod (2 ^ 64) = x + 2 ^ 64 :=
        Int.emod_eq_of_lt (by omega) (by omega)
      have h2 : (x + 2 ^ 64 * 1).emod (2 ^ 64) = x.emod (2 ^ 64) :=
        @Int.add_mul_emod_self_left x (2 ^ 64) 1
      have hm : x.emod (2 ^ 64) = x + 2 ^ 64 := by
        rw [← h2]
        simpa using h1
      have hu : (x.emod (2 ^ 64)).toNat < 256 ^ 8 := by
        rw [hm]
        omega
      have hval : beBytesToNat r.payload = (x.emod (2 ^ 64)).toNat := by
        rw [hpay, i64_to_be_bytes, beBytesToNat_natToBEBytes _ _ hu]
      simp only [hval, hm]
      rw [if_neg (by omega)]
      congr 1
      omega
  · intro r
    by_cases hlen : r.payload.length = 8
    · rw [SinkRecord.payload_int64, if_neg (by omega)]
      simp [exceptIsInvalidData, hlen]
    · rw [SinkRecord.payload_int64, if_pos hlen]
      simp [exceptIsInvalidData, ConnectorError.is_invalid_data, hlen]

/-- Claim C8, witness: the round trip at `x = -5`, and the failure
characterization at the 1-byte fixture payload. -/
theorem c8_payload_int64_roundtrip_witness :
    (SinkRecord.payload_int64
        ⟨i64_to_be_bytes (-5), [], ⟨"/default/t1", 0, 0, "m", "p"⟩, none⟩ =
      .ok (-5)) ∧
    (exceptIsInvalidData msgA.payload_int64 = true ↔
      msgA.payload.length ≠ 8) :=
  ⟨c8_payload_int64_roundtrip.1
      ⟨i64_to_be_bytes (-5), [], ⟨"/default/t1", 0, 0, "m", "p"⟩, none⟩
      (-5) (by norm_num) (by norm_num) rfl,
   c8_payload_int64_roundtrip.2 msgA⟩

/-- `SubscriptionType` (config.rs lines 10-15). -/
inductive SubscriptionType where
  | Exclusive
  | Shared
  | FailOver
deriving Repr, DecidableEq

/-- `ConnectorConfig` (config.rs lines 28-78); the flattened
connector-specific map is an association list. -/
structure ConnectorConfig where
  danube_service_url : String
  connector_name : String
  source_topic : Option String
  subscription_name : Option String
  subscription_type : Option SubscriptionType
  destination_topic : Option String
  reliable_dispatch : Bool
  max_retries : Nat
  retry_backoff_ms : Nat
  max_backoff_ms : Nat
  batch_size : Nat
  batch_timeout_ms : Nat
  poll_interval_ms : Nat
  metrics_port : Nat
  log_level : String
  connector_config : List (String × String)
deriving Repr, DecidableEq

/-- `ConnectorConfig::validate` (config.rs lines 222-241), checks in source
order. -/
def ConnectorConfig.validate (c : ConnectorConfig) :
    Except ConnectorError Unit :=
  if c.danube_service_url.isEmpty then
    .error (.Config "danube_service_url cannot be empty")
  else if c.connector_name.isEmpty then
    .error (.Config "connector_name cannot be empty")
  else if 100 < c.max_retries then
    .error (.Config "max_retries too high (max 100)")
  else if c.batch_size = 0 then
    .error (.Config "batch_size must be > 0")
  else .ok ()

/-- `ConnectorConfig::default` (config.rs lines 281-302). -/
def ConnectorConfig.defaultConfig : ConnectorConfig :=
  { danube_service_url := "http://localhost:6650"
    connector_name := "default-connector"
    source_topic := none
    subscription_name := none
    subscription_type := none
    destination_topic := none
    reliable_dispatch := true
    max_retries := 3
    retry_backoff_ms := 1000
    max_backoff_ms := 30000
    batch_size := 1000
    batch_timeout_ms := 1000
    poll_interval_ms := 100
    metrics_port := 9090
    log_level := "info"
    connector_config := [] }

/-- Whether a result is a `Config` failure. -/
def exceptIsConfig {α : Type} : Except ConnectorError α → Bool
  | .error e => e.is_config
  | .ok _ => false

/-- Claim C9: `validate` returns a `Config` error exactly when
`danube_service_url` is empty, `connector_name` is empty,
`max_retries > 100`, or `batch_size == 0`, and returns `Ok` otherwise
(`validate` takes `&self` and is embedded as a pure function of the
configuration, so it modifies no field). -/
theorem c9_validate_characterization (c : ConnectorConfig) :
    (exceptIsConfig c.validate = true ↔
      (c.danube_service_url.isEmpty = true ∨
       c.connector_name.isEmpty = true ∨
       100 < c.max_retries ∨ c.batch_size = 0)) ∧
    (c.validate = .ok () ↔
      ¬(c.danube_service_url.isEmpty = true ∨
        c.connector_name.isEmpty = true ∨
        100 < c.max_retries ∨ c.batch_size = 0)) := by
  unfold ConnectorConfig.validate
  rcases h1 : c.danube_service_url.isEmpty <;>
    rcases h2 : c.connector_name.isEmpty <;>
    by_cases h3 : 100 < c.max_retries <;>
    by_cases h4 : c.batch_size = 0 <;>
    simp [exceptIsConfig, ConnectorError.is_config, h1, h2, h3, h4]

/-- Environment lookup (`std::env::var`): first binding of the key. -/
def envVar (env : List (String × String)) (k : String) : Option String :=
  (env.find? (fun p => p.1 == k)).map (fun p => p.2)

/-- Model of `str::parse` for the unsigned integer configuration fields. -/
def parseNat (s : String) : Option Nat :=
  s.toNat?

/-- Model of `str::parse::<bool>`: accepts exactly "true" and "false". -/
def parseBool (s : String) : Option Bool :=
  if s = "true" then some true else if s = "false" then some false else none

/-- The `SUBSCRIPTION_TYPE` parser of `from_env` (config.rs lines
112-120). -/
def parseSubscriptionType (s : String) : Option SubscriptionType :=
  match s.toLower with
  | "exclusive" => some .Exclusive
  | "shared" => some .Shared
  | "failover" => some .FailOver
  | _ => none

/-- The key filter of the `connector_config` collection (config.rs lines
165-188): reserved keys are excluded. -/
def isReservedKey (k : String) : Bool :=
  k.startsWith "DANUBE_" || k.startsWith "CONNECTOR_" ||
  k.startsWith "SUBSCRIPTION_" ||
  ["RELIABLE_DISPATCH", "MAX_RETRIES", "RETRY_BACKOFF_MS",
   "MAX_BACKOFF_MS", "BATCH_SIZE", "BATCH_TIMEOUT_MS", "POLL_INTERVAL_MS",
   "METRICS_PORT", "LOG_LEVEL", "RUST_LOG", "PATH", "HOME", "USER",
   "SHELL", "TERM"].contains k

/-- `ConnectorConfig::from_env` (config.rs lines 100-209).  The process
environment is the association list `env`.  `DANUBE_SERVICE_URL` and
`CONNECTOR_NAME` are required (`Config` error when absent); the single
`DANUBE_TOPIC` value becomes both `source_topic` and `destination_topic`;
every other field falls back to its default when absent or unparsable. -/
def ConnectorConfig.from_env (env : List (String × String)) :
    Except ConnectorError ConnectorConfig :=
  match envVar env "DANUBE_SERVICE_URL" with
  | none => .error (.Config "DANUBE_SERVICE_URL is required")
  | some url =>
    match envVar env "CONNECTOR_NAME" with
    | none => .error (.Config "CONNECTOR_NAME is required")
    | some name =>
      let topic := envVar env "DANUBE_TOPIC"
      .ok
        { danube_service_url := url
          connector_name := name
          source_topic := topic
          subscription_name := envVar env "SUBSCRIPTION_NAME"
          subscription_type :=
            (envVar env "SUBSCRIPTION_TYPE").bind parseSubscriptionType
          destination_topic := topic
          reliable_dispatch :=
            ((envVar env "RELIABLE_DISPATCH").bind parseBool).getD true
          max_retries := ((envVar env "MAX_RETRIES").bind parseNat).getD 3
          retry_backoff_ms :=
            ((envVar env "RETRY_BACKOFF_MS").bind parseNat).getD 1000
          max_backoff_ms :=
            ((envVar env "MAX_BACKOFF_MS").bind parseNat).getD 30000
          batch_size := ((envVar env "BATCH_SIZE").bind parseNat).getD 1000
          batch_timeout_ms :=
            ((envVar env "BATCH_TIMEOUT_MS").bind parseNat).getD 1000
          poll_interval_ms :=
            ((envVar env "POLL_INTERVAL_MS").bind parseNat).getD 100
          metrics_port := ((envVar env "METRICS_PORT").bind parseNat).getD 9090
          log_level := (envVar env "LOG_LEVEL").getD "info"
          connector_config :=
            env.filter (fun p => !(isReservedKey p.1)) }

/-- Claim C10: `from_env` fails — always with a `Config` error — exactly
when `DANUBE_SERVICE_URL` or `CONNECTOR_NAME` is absent from the
environment; and every configuration it returns has
`source_topic = destination_topic`, both equal to the optional
`DANUBE_TOPIC` value, so a sink and a source runtime built from the same
environment address the same topic. -/
theorem c10_from_env_characterization (env : List (String × String)) :
    (exceptIsConfig (ConnectorConfig.from_env env) = true ↔
      (envVar env "DANUBE_SERVICE_URL" = none ∨
       envVar env "CONNECTOR_NAME" = none)) ∧
    ((ConnectorConfig.from_env env).isOk = true ↔
      ¬(envVar env "DANUBE_SERVICE_URL" = none ∨
        envVar env "CONNECTOR_NAME" = none)) ∧
    (∀ c, ConnectorConfig.from_env env = .ok c →
      c.source_topic = envVar env "DANUBE_TOPIC" ∧
      c.destination_topic = envVar env "DANUBE_TOPIC" ∧
      c.source_topic = c.destination_topic) := by
  rcases hu : envVar env "DANUBE_SERVICE_URL" with _ | url
  · refine ⟨?_, ?_, ?_⟩
    · simp [ConnectorConfig.from_env, hu, exceptIsConfig,
        ConnectorError.is_config]
    · simp [ConnectorConfig.from_env, hu, Except.isOk, Except.toBool]
    · intro c hc
      rw [ConnectorConfig.from_env] at hc
      rw [hu] at hc
      simp at hc
  · rcases hn : envVar env "CONNECTOR_NAME" with _ | name
    · refine ⟨?_, ?_, ?_⟩
      · simp [ConnectorConfig.from_env, hu, hn, exceptIsConfig,
          ConnectorError.is_config]
      · simp [ConnectorConfig.from_env, hu, hn, Except.isOk, Except.toBool]
      · intro c hc
        rw [ConnectorConfig.from_env] at hc
        rw [hu, hn] at hc
        simp at hc
    · refine ⟨?_, ?_, ?_⟩
      · simp [ConnectorConfig.from_env, hu, hn, exceptIsConfig]
      · simp [ConnectorConfig.from_env, hu, hn, Except.isOk, Except.toBool]
      · intro c hc
        rw [ConnectorConfig.from_env] at hc
        rw [hu, hn] at hc
        have hc2 := Except.ok.inj hc
        subst hc2
        exact ⟨rfl, rfl, rfl⟩

/-- Test fixture: an environment with both required variables and a
topic. -/
def envFix : List (String × String) :=
  [("DANUBE_SERVICE_URL", "grpc://localhost:6650"),
   ("CONNECTOR_NAME", "pg-sink"),
   ("DANUBE_TOPIC", "/default/events")]

/-- Claim C10, witness: on the fixture environment `from_env` succeeds and
the returned configuration's two topic fields coincide. -/
theorem c10_from_env_characterization_witness :
    ((ConnectorConfig.from_env envFix).toOption.getD
        ConnectorConfig.defaultConfig).source_topic =
      envVar envFix "DANUBE_TOPIC" ∧
    ((ConnectorConfig.from_env envFix).toOption.getD
        ConnectorConfig.defaultConfig).destination_topic =
      envVar envFix "DANUBE_TOPIC" ∧
    ((ConnectorConfig.from_env envFix).toOption.getD
        ConnectorConfig.defaultConfig).source_topic =
      ((ConnectorConfig.from_env envFix).toOption.getD
        ConnectorConfig.defaultConfig).destination_topic :=
  (c10_from_env_characterization envFix).2.2
    ((ConnectorConfig.from_env envFix).toOption.getD
      ConnectorConfig.defaultConfig) (by rfl)

end DanubeConnect
